import Mathlib

set_option maxHeartbeats 1000000

/-!
Shallow embedding of `src/minizinc/driver.py` (minizinc-python), covering the
solver-configuration record (`ExecDriver`), its attribute-interception hook
(`__setattr__`), registry discovery (`load_solver`), the temporary-configuration
context manager (`_gen_solver`), command assembly (`solve`), version probing
(`minizinc_version` and the `__init__` version parse), serialization (`to_json`)
and base-driver detection (`find_minizinc` / module-level `load_solver`).

Python objects are modelled as a structural value (`PyData`) paired with an
object reference number (`PyVal.ref`); the `is` operator compares references,
`==` compares structural values.  External effects (subprocess spawns, the
temporary file) are modelled by an explicit `World` state.
-/

/-- Structural content of a Python value as used by `driver.py`:
strings, ints, bools, `None`, lists and tuples. -/
inductive PyData where
  | pstr (s : String)
  | pint (n : Int)
  | pbool (b : Bool)
  | pnone
  | plist (l : List PyData)
  | ptuple (l : List PyData)

/-- A Python object: structural data plus an object reference.  Two values are
`==`-equal iff their `data` agree; they are `is`-identical iff their `ref`s
agree.  Distinct live objects never share a `ref`. -/
structure PyVal where
  data : PyData
  ref : Nat

/-- The `None` singleton object (Python has exactly one `None`; any value whose
`data` is `pnone` denotes it, and `x is None` is a `data` test). -/
def pyNoneV : PyVal := ⟨PyData.pnone, 0⟩

/-- The attribute state of an `ExecDriver` instance: the capability fields
declared in the class (`driver.py` lines 63-73), plus `name` (from `Driver`),
`id` and the base-driver handle `driver`. -/
structure ExecDriverState where
  name : PyVal
  version : PyVal
  mznlib : PyVal
  tags : PyVal
  executable : PyVal
  stdFlags : PyVal
  extraFlags : PyVal
  supportsMzn : PyVal
  supportsFzn : PyVal
  needsSolns2Out : PyVal
  needsMznExecutable : PyVal
  needsStdlibDir : PyVal
  isGUIApplication : PyVal
  id : PyVal
  driver : PyVal

/-- The key list intercepted by `ExecDriver.__setattr__` (lines 217-218). -/
def capabilityFields : List String :=
  ["version", "executable", "mznlib", "tags", "stdFlags", "extraFlags",
   "supportsMzn", "supportsFzn", "needsSolns2Out", "needsMznExecutable",
   "needsStdlibDir", "isGUIApplication"]

/-- `getattr(self, key, None)`: read an attribute by name, `None` for
attributes not modelled (all keys used by the source are modelled). -/
def ExecDriverState.getattr (r : ExecDriverState) (key : String) : PyVal :=
  if key = "name" then r.name
  else if key = "version" then r.version
  else if key = "mznlib" then r.mznlib
  else if key = "tags" then r.tags
  else if key = "executable" then r.executable
  else if key = "stdFlags" then r.stdFlags
  else if key = "extraFlags" then r.extraFlags
  else if key = "supportsMzn" then r.supportsMzn
  else if key = "supportsFzn" then r.supportsFzn
  else if key = "needsSolns2Out" then r.needsSolns2Out
  else if key = "needsMznExecutable" then r.needsMznExecutable
  else if key = "needsStdlibDir" then r.needsStdlibDir
  else if key = "isGUIApplication" then r.isGUIApplication
  else if key = "id" then r.id
  else if key = "driver" then r.driver
  else pyNoneV

/-- `super().__setattr__(key, value)`: the plain attribute store, with no
interception — the attribute named `key` takes `v`, all others are unchanged
(written pointwise per field, which is the same function).  Unknown keys would
land in `__dict__`; no such key is used by the source, so they are dropped. -/
def ExecDriverState.setattrRaw (r : ExecDriverState) (key : String) (v : PyVal) :
    ExecDriverState where
  name := if key = "name" then v else r.name
  version := if key = "version" then v else r.version
  mznlib := if key = "mznlib" then v else r.mznlib
  tags := if key = "tags" then v else r.tags
  executable := if key = "executable" then v else r.executable
  stdFlags := if key = "stdFlags" then v else r.stdFlags
  extraFlags := if key = "extraFlags" then v else r.extraFlags
  supportsMzn := if key = "supportsMzn" then v else r.supportsMzn
  supportsFzn := if key = "supportsFzn" then v else r.supportsFzn
  needsSolns2Out := if key = "needsSolns2Out" then v else r.needsSolns2Out
  needsMznExecutable := if key = "needsMznExecutable" then v else r.needsMznExecutable
  needsStdlibDir := if key = "needsStdlibDir" then v else r.needsStdlibDir
  isGUIApplication := if key = "isGUIApplication" then v else r.isGUIApplication
  id := if key = "id" then v else r.id
  driver := if key = "driver" then v else r.driver

/-- `ExecDriver.__setattr__` (lines 216-221): if `key` is a capability field and
`getattr(self, key, None) is not value` — an object-reference comparison — then
`self.id = None` (itself routed through this hook; `"id"` is not intercepted)
before the plain store. -/
def ExecDriverState.setattr (r : ExecDriverState) (key : String) (v : PyVal) :
    ExecDriverState :=
  if key ∈ capabilityFields ∧ (r.getattr key).ref ≠ v.ref then
    (r.setattrRaw "id" pyNoneV).setattrRaw key v
  else
    r.setattrRaw key v

/-- A concrete, fully populated `ExecDriver` record with a registry-supplied
identity, used as test input. -/
def sampleDriver : ExecDriverState where
  name := ⟨PyData.pstr "Test", 1⟩
  version := ⟨PyData.ptuple [PyData.pint 2, PyData.pint 5, PyData.pint 3], 2⟩
  mznlib := ⟨PyData.pstr "", 3⟩
  tags := ⟨PyData.plist [PyData.pstr "cp"], 4⟩
  executable := ⟨PyData.pstr "fzn-test", 5⟩
  stdFlags := ⟨PyData.plist [PyData.pstr "-p"], 6⟩
  extraFlags := ⟨PyData.plist [], 7⟩
  supportsMzn := ⟨PyData.pbool false, 8⟩
  supportsFzn := ⟨PyData.pbool true, 9⟩
  needsSolns2Out := ⟨PyData.pbool false, 10⟩
  needsMznExecutable := ⟨PyData.pbool false, 11⟩
  needsStdlibDir := ⟨PyData.pbool false, 12⟩
  isGUIApplication := ⟨PyData.pbool false, 13⟩
  id := ⟨PyData.pstr "org.test", 14⟩
  driver := ⟨PyData.pstr "minizinc", 15⟩

lemma cap_ne_id {key : String} (h : key ∈ capabilityFields) : key ≠ "id" := by
  simp only [capabilityFields, List.mem_cons, List.not_mem_nil, or_false] at h
  rcases h with rfl|rfl|rfl|rfl|rfl|rfl|rfl|rfl|rfl|rfl|rfl|rfl <;> decide

lemma setattrRaw_id_self (r : ExecDriverState) (v : PyVal) :
    (r.setattrRaw "id" v).id = v := rfl

lemma setattrRaw_id_of_ne (r : ExecDriverState) (key : String) (v : PyVal)
    (h : key ≠ "id") : (r.setattrRaw key v).id = r.id := by
  simp [ExecDriverState.setattrRaw, h]

lemma setattr_id (r : ExecDriverState) (v : PyVal) :
    r.setattr "id" v = r.setattrRaw "id" v := by
  unfold ExecDriverState.setattr
  rw [if_neg (fun hc => absurd hc.1 (by decide))]

lemma setattr_clear (r : ExecDriverState) (key : String) (v : PyVal)
    (hk : key ∈ capabilityFields) (h : (r.getattr key).ref ≠ v.ref) :
    (r.setattr key v).id = pyNoneV := by
  unfold ExecDriverState.setattr
  rw [if_pos ⟨hk, h⟩, setattrRaw_id_of_ne _ _ _ (cap_ne_id hk), setattrRaw_id_self]

lemma setattr_keep (r : ExecDriverState) (key : String) (v : PyVal)
    (h : ¬ (key ∈ capabilityFields ∧ (r.getattr key).ref ≠ v.ref)) :
    r.setattr key v = r.setattrRaw key v := by
  unfold ExecDriverState.setattr
  rw [if_neg h]

lemma setattr_stores (r : ExecDriverState) (key : String) (v : PyVal)
    (hk : key ∈ capabilityFields) : ((r.setattr key v).getattr key) = v := by
  unfold ExecDriverState.setattr
  simp only [capabilityFields, List.mem_cons, List.not_mem_nil, or_false] at hk
  rcases hk with rfl|rfl|rfl|rfl|rfl|rfl|rfl|rfl|rfl|rfl|rfl|rfl <;>
    · split_ifs <;> rfl

/-- **C1** (amended).  For a capability-field write, `__setattr__` compares the
new value against the current one with `is not`, i.e. by object reference, not
by structural value (line 219): a write of a *different object* clears `id` to
`None` before the store, a write of the *very same object* leaves `id`
untouched.  Since structurally different values are necessarily different
objects, any write that changes the value still clears `id`; but a structurally
equal yet distinct object also clears it (see the counterexample). -/
theorem setattr_capability_identity (r : ExecDriverState) (key : String) (v : PyVal)
    (hk : key ∈ capabilityFields) :
    ((r.getattr key).ref ≠ v.ref → (r.setattr key v).id = pyNoneV) ∧
    ((r.getattr key).ref = v.ref → (r.setattr key v).id = r.id) ∧
    ((r.getattr key).data ≠ v.data →
      ((r.getattr key).ref = v.ref → (r.getattr key).data = v.data) →
      (r.setattr key v).id = pyNoneV) ∧
    (r.setattr key v).getattr key = v := by
  refine ⟨fun h => setattr_clear r key v hk h, fun h => ?_,
    fun hd hwf => setattr_clear r key v hk (fun hr => hd (hwf hr)),
    setattr_stores r key v hk⟩
  rw [setattr_keep r key v (fun hc => hc.2 h), setattrRaw_id_of_ne r key v (cap_ne_id hk)]

/-- **C1 counterexample.**  Assigning to `tags` a fresh list object whose value
is structurally *equal* to the current one still clears `identity`, because the
source compares with `is not` (reference), not `!=` (value): the claim's
"assigning a value equal by value to the current value leaves identity
unchanged" is false. -/
theorem setattr_equal_value_clears_identity :
    sampleDriver.tags.data = PyData.plist [PyData.pstr "cp"] ∧
    (ExecDriverState.setattr sampleDriver "tags"
        ⟨PyData.plist [PyData.pstr "cp"], 99⟩).id.data = PyData.pnone ∧
    sampleDriver.id.data = PyData.pstr "org.test" ∧
    PyData.pstr "org.test" ≠ PyData.pnone :=
  ⟨rfl, rfl, rfl, fun h => PyData.noConfusion h⟩

/-- Witness for `setattr_capability_identity` at a concrete input. -/
theorem setattr_capability_identity_w :
    (ExecDriverState.setattr sampleDriver "executable" ⟨PyData.pstr "other", 77⟩).id = pyNoneV :=
  (setattr_capability_identity sampleDriver "executable" ⟨PyData.pstr "other", 77⟩
    (by decide)).1 (by decide)

/-- **C10** (amended).  Writes to attributes outside the intercepted capability
list are stored without touching `identity`: in particular renaming (`name`)
and replacing the base-driver handle (`driver`) preserve `id`.  A write to `id`
itself is also not intercepted, but it *stores* the assigned value — so it does
change `identity` when the assigned value differs (see the counterexample). -/
theorem setattr_noncapability_frame (r : ExecDriverState) (key : String) (v : PyVal)
    (hk : key ∉ capabilityFields) (hid : key ≠ "id") :
    (r.setattr key v).id = r.id ∧
    (r.setattr "name" v).id = r.id ∧
    (r.setattr "driver" v).id = r.id ∧
    (r.setattr "id" v).id = v := by
  have hgen : ∀ k, k ∉ capabilityFields → k ≠ "id" → (r.setattr k v).id = r.id := by
    intro k h1 h2
    rw [setattr_keep r k v (fun hc => h1 hc.1), setattrRaw_id_of_ne r k v h2]
  exact ⟨hgen key hk hid, hgen "name" (by decide) (by decide),
    hgen "driver" (by decide) (by decide), by rw [setattr_id, setattrRaw_id_self]⟩

/-- **C10 counterexample.**  Assigning a new value to the attribute `id` itself
does not leave identity unchanged: the new value is stored, so `identity`
becomes the assigned value. -/
theorem setattr_id_changes_identity :
    (ExecDriverState.setattr sampleDriver "id" ⟨PyData.pstr "other", 98⟩).id.data =
      PyData.pstr "other" ∧
    sampleDriver.id.data = PyData.pstr "org.test" ∧
    PyData.pstr "other" ≠ PyData.pstr "org.test" :=
  ⟨rfl, rfl, fun h => absurd (PyData.pstr.inj h) (by decide)⟩

/-- Witness for `setattr_noncapability_frame`: renaming a concrete record
preserves its identity. -/
theorem setattr_noncapability_frame_w :
    (ExecDriverState.setattr sampleDriver "name" ⟨PyData.pstr "Renamed", 80⟩).id =
      sampleDriver.id :=
  (setattr_noncapability_frame sampleDriver "name" ⟨PyData.pstr "Renamed", 80⟩
    (by decide) (by decide)).2.1

/-- Numeric value of a decimal digit run, `int("".join(ds))`. -/
def digitsToNat (ds : List Char) : Nat :=
  ds.foldl (fun a c => 10 * a + (c.toNat - 48)) 0

/-- Match of the regex `(\d+)\.(\d+)\.(\d+)` anchored at the start of `l`
(Python `re` on this pattern: each `\d+` is the maximal digit run, since the
following literal `.` cannot match a digit; `\d` is modelled as an ASCII digit,
which covers the inputs this code consumes). -/
def matchTripleAt (l : List Char) : Option (Nat × Nat × Nat) :=
  match l.span Char.isDigit with
  | ([], _) => Option.none
  | (d1, r1) =>
    match r1 with
    | '.' :: r2 =>
      match r2.span Char.isDigit with
      | ([], _) => Option.none
      | (d2, r3) =>
        match r3 with
        | '.' :: r4 =>
          match r4.span Char.isDigit with
          | ([], _) => Option.none
          | (d3, _) => some (digitsToNat d1, digitsToNat d2, digitsToNat d3)
        | _ => Option.none
    | _ => Option.none

/-- The literal prefix of the regex in `minizinc_version` (line 192). -/
def versionLit : List Char := "version ".toList

/-- Match of the regex `version (\d+)\.(\d+)\.(\d+)` anchored at the start. -/
def matchVersionAt (l : List Char) : Option (Nat × Nat × Nat) :=
  if versionLit.isPrefixOf l then matchTripleAt (l.drop versionLit.length)
  else Option.none

/-- `re.search`: try the anchored match at every position, left to right, and
return the first success. -/
def searchWith (f : List Char → Option (Nat × Nat × Nat)) :
    List Char → Option (Nat × Nat × Nat)
  | [] => Option.none
  | c :: rest =>
    match f (c :: rest) with
    | some v => some v
    | Option.none => searchWith f rest

/-- `re.search(r"(\d+)\.(\d+)\.(\d+)", s)` followed by `int` on the groups,
as used on a registry descriptor's version string in `__init__` (lines
121-122).  `Option.none` models the `AttributeError` raised by `.groups()`
when the search fails. -/
def searchTriple (s : String) : Option (Nat × Nat × Nat) :=
  searchWith matchTripleAt s.toList

/-- `ExecDriver.minizinc_version` (lines 190-193) applied to the text produced
by the `--version` query: `re.search(r"version (\d+)\.(\d+)\.(\d+)", out)`,
then `int` on the groups.  `Option.none` models the `AttributeError` raised by
`.groups()` when the search fails. -/
def ExecDriver.minizinc_version (stdout : String) : Option (Nat × Nat × Nat) :=
  searchWith matchVersionAt stdout.toList

lemma searchWith_nil (f : List Char → Option (Nat × Nat × Nat)) :
    searchWith f [] = Option.none := rfl

lemma searchWith_cons (f : List Char → Option (Nat × Nat × Nat)) (c : Char)
    (rest : List Char) :
    searchWith f (c :: rest) =
      match f (c :: rest) with
      | some v => some v
      | Option.none => searchWith f rest := rfl

/-- `re.search` finds nothing iff the anchored match fails at every position. -/
lemma searchWith_eq_none_iff (f : List Char → Option (Nat × Nat × Nat)) :
    ∀ l : List Char,
      searchWith f l = Option.none ↔ ∀ i < l.length, f (l.drop i) = Option.none := by
  intro l
  induction l with
  | nil => simp [searchWith_nil]
  | cons c rest ih =>
    rw [searchWith_cons]
    constructor
    · intro h i hi
      match hf : f (c :: rest) with
      | some v => rw [hf] at h; exact absurd h (by simp)
      | Option.none =>
        rw [hf] at h
        match i with
        | 0 => simpa using hf
        | i + 1 =>
          have := (ih.mp h) i (by simpa using hi)
          simpa using this
    · intro h
      have h0 := h 0 (by simp)
      simp only [List.drop_zero] at h0
      rw [h0]
      exact ih.mpr (fun i hi => by simpa using h (i + 1) (by simpa using hi))

/-- `re.search` returns the match at the first position where the anchored
match succeeds. -/
lemma searchWith_eq_some (f : List Char → Option (Nat × Nat × Nat)) :
    ∀ (l : List Char) (v : Nat × Nat × Nat), searchWith f l = some v →
      ∃ i, i < l.length ∧ f (l.drop i) = some v ∧
        ∀ j < i, f (l.drop j) = Option.none := by
  intro l
  induction l with
  | nil => intro v h; exact absurd h (by simp [searchWith_nil])
  | cons c rest ih =>
    intro v h
    rw [searchWith_cons] at h
    match hf : f (c :: rest) with
    | some w =>
      rw [hf] at h
      refine ⟨0, by simp, ?_, by omega⟩
      simpa [← h] using hf
    | Option.none =>
      rw [hf] at h
      obtain ⟨i, hi, hsome, hprior⟩ := ih v h
      refine ⟨i + 1, by simpa using hi, by simpa using hsome, ?_⟩
      intro j hj
      match j with
      | 0 => simpa using hf
      | j + 1 => simpa using hprior j (by omega)

/-- **C7** (amended).  The probe for `--version` output (`minizinc_version`)
returns the integer triple of the *first occurrence of the prefixed pattern*
`version <major>.<minor>.<patch>` — the triple must be preceded by the literal
text `"version "` — and fails (the failed search's `.groups()` raises, modelled
as `Option.none`) when no such prefixed occurrence exists, even if a bare
`<major>.<minor>.<patch>` occurs.  The separate probe applied to a registry
descriptor's version string in `__init__` (`searchTriple`) returns the first
occurrence of the bare pattern.  `"... version 2.5.3"` yields `(2,5,3)` under
both. -/
theorem minizinc_version_first_prefixed_match :
    (∀ s : String, ExecDriver.minizinc_version s = Option.none ↔
      ∀ i < s.toList.length, matchVersionAt (s.toList.drop i) = Option.none) ∧
    (∀ (s : String) (v : Nat × Nat × Nat), ExecDriver.minizinc_version s = some v →
      ∃ i, i < s.toList.length ∧ matchVersionAt (s.toList.drop i) = some v ∧
        ∀ j < i, matchVersionAt (s.toList.drop j) = Option.none) ∧
    (∀ s : String, searchTriple s = Option.none ↔
      ∀ i < s.toList.length, matchTripleAt (s.toList.drop i) = Option.none) ∧
    (∀ (s : String) (v : Nat × Nat × Nat), searchTriple s = some v →
      ∃ i, i < s.toList.length ∧ matchTripleAt (s.toList.drop i) = some v ∧
        ∀ j < i, matchTripleAt (s.toList.drop j) = Option.none) ∧
    ExecDriver.minizinc_version "MiniZinc to FlatZinc converter, version 2.5.3" =
      some (2, 5, 3) ∧
    ExecDriver.minizinc_version "2.5.3" = Option.none ∧
    searchTriple "2.5.3" = some (2, 5, 3) :=
  ⟨fun _ => searchWith_eq_none_iff _ _, fun _ => searchWith_eq_some _ _,
   fun _ => searchWith_eq_none_iff _ _, fun _ => searchWith_eq_some _ _,
   by decide, by decide, by decide⟩

/-- **C7 counterexample.**  On `"1.2.3 version 4.5.6"` the first occurrence of
the bare pattern `<major>.<minor>.<patch>` is `(1,2,3)` (it matches at position
0), but `minizinc_version` returns `(4,5,6)`: the probe's regex requires the
literal `"version "` before the triple, so the claim "returns the first
occurrence of the pattern `<major>.<minor>.<patch>`" is false for it. -/
theorem minizinc_version_counterex :
    ExecDriver.minizinc_version "1.2.3 version 4.5.6" = some (4, 5, 6) ∧
    searchTriple "1.2.3 version 4.5.6" = some (1, 2, 3) ∧
    matchTripleAt ("1.2.3 version 4.5.6".toList) = some (1, 2, 3) ∧
    some ((4 : Nat), (5 : Nat), (6 : Nat)) ≠ some ((1 : Nat), (2 : Nat), (3 : Nat)) := by
  refine ⟨by decide, by decide, by decide, by decide⟩

/-- Witness for `minizinc_version_first_prefixed_match` at a concrete input:
text with a bare triple but no `"version "` prefix makes the probe fail. -/
theorem minizinc_version_first_prefixed_match_w :
    ExecDriver.minizinc_version "flatzinc 1.2.3" = Option.none :=
  (minizinc_version_first_prefixed_match.1 "flatzinc 1.2.3").mpr (by decide)

/-- Errors raised by the embedded code paths, with the spec's taxonomy names:
`lookupError` is the `LookupError` of `ExecDriver.load_solver` (the spec's
`SolverNotFoundError`), carrying the sorted candidate list its message embeds;
`notImplementedError` is the `NotImplementedError` of `solve` (the spec's
`UnsupportedCapabilityError`), carrying the flag its message names;
`attributeError` is the `AttributeError` from calling `.groups()` on a failed
version search (the spec's `ParseError`); `fileExistsError` is the
`FileExistsError` "MiniZinc driver not found" of the module-level
`load_solver` (the spec's `DriverNotFoundError`). -/
inductive PyErr where
  | lookupError (available : List String)
  | notImplementedError (flag : String)
  | attributeError
  | fileExistsError
deriving DecidableEq

/-- The text after the last `'.'` of `s` (the whole of `s` when it has no
`'.'`): Python's `s.split(".")[-1]`. -/
def lastSegAux (cur : List Char) : List Char → List Char
  | [] => cur.reverse
  | c :: rest => if c = '.' then lastSegAux [] rest else lastSegAux (c :: cur) rest

/-- `s.split(".")[-1]` (line 85). -/
def lastSegment (s : String) : String := String.mk (lastSegAux [] s.toList)

/-- A solver descriptor from the `--solvers-json` registry: required keys
`id`, `name`, `version`, `executable`; the remaining capability keys are
optional (`Option.none` = key absent from the JSON object). -/
structure SolverInfo where
  id : String
  name : String
  version : String
  executable : String
  mznlib : Option String := Option.none
  tags : Option (List String) := Option.none
  stdFlags : Option (List String) := Option.none
  extraFlags : Option PyData := Option.none
  supportsMzn : Option Bool := Option.none
  supportsFzn : Option Bool := Option.none
  needsSolns2Out : Option Bool := Option.none
  needsMznExecutable : Option Bool := Option.none
  needsStdlibDir : Option Bool := Option.none
  isGUIApplication : Option Bool := Option.none

/-- `s_names` (lines 85-86): one descriptor's candidate selector names — its
id, the last dot-separated segment of the id, and its tags (`s.get("tags", [])`
gives `[]` when the key is absent). -/
def SolverInfo.names (s : SolverInfo) : List String :=
  [s.id, lastSegment s.id] ++ s.tags.getD []

/-- The matching loop of `ExecDriver.load_solver` (lines 82-90): union each
descriptor's candidate names into the accumulator (the Python code keeps a
set; duplicates are removed when the error payload is built), and stop at the
first descriptor whose candidate names contain the selector. -/
def findSolverInfo (solver : String) :
    List SolverInfo → List String → Option SolverInfo × List String
  | [], acc => (Option.none, acc)
  | s :: rest, acc =>
    if solver ∈ s.names then (some s, acc ++ s.names)
    else findSolverInfo solver rest (acc ++ s.names)

/-- Lexicographic comparison of character lists by code point — the order
Python's `<=` puts on strings. -/
def lexLe : List Char → List Char → Bool
  | [], _ => true
  | _ :: _, [] => false
  | a :: as_, b :: bs =>
    if a.toNat < b.toNat then true
    else if a.toNat = b.toNat then lexLe as_ bs
    else false

/-- Python's string `<=`. -/
def strLeb (a b : String) : Bool := lexLe a.toList b.toList

/-- First-occurrence deduplication with an accumulator of names already seen:
the distinct elements of a list, which is what a Python set holds. -/
def dedupFirst (seen : List String) : List String → List String
  | [] => []
  | x :: xs => if x ∈ seen then dedupFirst seen xs else x :: dedupFirst (x :: seen) xs

/-- `sorted([x for x in names])` over the accumulated name set (line 93): the
ascending enumeration of the distinct accumulated names. -/
def sortedCandidates (acc : List String) : List String :=
  (dedupFirst [] acc).insertionSort (fun a b => strLeb a b = true)

/-- Net effect of `ExecDriver.__init__` (lines 113-135) on the record: parse
the free-text `version` with the bare-triple probe (a failed search raises
`AttributeError` at `.groups()`), store name/version/executable and the base
driver, set `id` to `None` (line 120) and give every optional capability field
its default (lines 126-135).  Each capability store routes through
`__setattr__` and at most re-clears the already-`None` `id`, so recording net
field values is exact.  `base` numbers the fresh objects the constructor
allocates.  The `assert self.minizinc_version() >= required_version` check
queries the external tool and does not touch the record; it is elided. -/
def ExecDriver.init (name version executable driverPath : String) (base : Nat) :
    Except PyErr ExecDriverState :=
  match searchTriple version with
  | Option.none => .error PyErr.attributeError
  | some (a, b, c) =>
    .ok {
      name := ⟨PyData.pstr name, base⟩
      version := ⟨PyData.ptuple [PyData.pint a, PyData.pint b, PyData.pint c], base + 1⟩
      executable := ⟨PyData.pstr executable, base + 2⟩
      mznlib := ⟨PyData.pstr "", base + 3⟩
      tags := ⟨PyData.plist [], base + 4⟩
      stdFlags := ⟨PyData.plist [], base + 5⟩
      extraFlags := ⟨PyData.plist [], base + 6⟩
      supportsMzn := ⟨PyData.pbool false, base + 7⟩
      supportsFzn := ⟨PyData.pbool true, base + 8⟩
      needsSolns2Out := ⟨PyData.pbool false, base + 9⟩
      needsMznExecutable := ⟨PyData.pbool false, base + 10⟩
      needsStdlibDir := ⟨PyData.pbool false, base + 11⟩
      isGUIApplication := ⟨PyData.pbool false, base + 12⟩
      id := pyNoneV
      driver := ⟨PyData.pstr driverPath, base + 13⟩
    }

/-- `ExecDriver.load_solver` (lines 75-111).  The registry query
(`minizinc --solvers-json`) is a parameter (`registry`).  After the matching
loop, the record is built by `__init__` and every optional field is overlaid
from the descriptor; the source's fallback expression is literally
`ret.mznlib` — the already-updated mznlib value — for *every* field (lines
100-108), and a fallback reuses that very object (same `ref`).  Intermediate
id-clearing by `__setattr__` is overwritten by the final `ret.id = info["id"]`
(line 109), so net field values are recorded. -/
def ExecDriver.load_solver (solver driverPath : String) (registry : List SolverInfo)
    (base : Nat) : Except PyErr ExecDriverState :=
  match findSolverInfo solver registry [] with
  | (Option.none, names) => .error (PyErr.lookupError (sortedCandidates names))
  | (some info, _) =>
    match ExecDriver.init info.name info.version info.executable driverPath base with
    | .error e => .error e
    | .ok ret =>
      let mz : PyVal := match info.mznlib with
        | some s => ⟨PyData.pstr s, base + 20⟩
        | Option.none => ret.mznlib
      .ok { ret with
        mznlib := mz
        tags := (info.tags.map fun l =>
          (⟨PyData.plist (l.map PyData.pstr), base + 21⟩ : PyVal)).getD mz
        stdFlags := (info.stdFlags.map fun l =>
          (⟨PyData.plist (l.map PyData.pstr), base + 22⟩ : PyVal)).getD mz
        extraFlags := (info.extraFlags.map fun d => (⟨d, base + 23⟩ : PyVal)).getD mz
        supportsMzn :=
          (info.supportsMzn.map fun b => (⟨PyData.pbool b, base + 24⟩ : PyVal)).getD mz
        supportsFzn :=
          (info.supportsFzn.map fun b => (⟨PyData.pbool b, base + 25⟩ : PyVal)).getD mz
        needsSolns2Out :=
          (info.needsSolns2Out.map fun b => (⟨PyData.pbool b, base + 26⟩ : PyVal)).getD mz
        needsMznExecutable :=
          (info.needsMznExecutable.map fun b => (⟨PyData.pbool b, base + 27⟩ : PyVal)).getD mz
        needsStdlibDir :=
          (info.needsStdlibDir.map fun b => (⟨PyData.pbool b, base + 28⟩ : PyVal)).getD mz
        isGUIApplication :=
          (info.isGUIApplication.map fun b => (⟨PyData.pbool b, base + 29⟩ : PyVal)).getD mz
        id := ⟨PyData.pstr info.id, base + 30⟩ }

/-- A registry descriptor that omits every optional capability key. -/
def infoBare : SolverInfo where
  id := "org.example.foo"
  name := "foo"
  version := "1.0.0"
  executable := "fzn-foo"

/-- A registry descriptor with tags, used to exercise candidate-name unions. -/
def infoTagged : SolverInfo where
  id := "org.example.bar"
  name := "bar"
  version := "2.1.7"
  executable := "fzn-bar"
  tags := some ["cp", "lcg"]

lemma lexLe_cons (x y : Char) (as_ bs : List Char) :
    lexLe (x :: as_) (y :: bs) = true ↔
      (x.toNat < y.toNat ∨ (x.toNat = y.toNat ∧ lexLe as_ bs = true)) := by
  simp only [lexLe]
  split_ifs with h1 h2
  · simp [h1]
  · simp [h1, h2]
  · simp [h1, h2]

lemma lexLe_total : ∀ a b : List Char, lexLe a b = true ∨ lexLe b a = true := by
  intro a
  induction a with
  | nil => intro b; left; rfl
  | cons x as_ ih =>
    intro b
    cases b with
    | nil => right; rfl
    | cons y bs =>
      rcases Nat.lt_trichotomy x.toNat y.toNat with h | h | h
      · exact Or.inl ((lexLe_cons _ _ _ _).mpr (Or.inl h))
      · rcases ih bs with h4 | h4
        · exact Or.inl ((lexLe_cons _ _ _ _).mpr (Or.inr ⟨h, h4⟩))
        · exact Or.inr ((lexLe_cons _ _ _ _).mpr (Or.inr ⟨h.symm, h4⟩))
      · exact Or.inr ((lexLe_cons _ _ _ _).mpr (Or.inl h))

lemma lexLe_trans : ∀ a b c : List Char,
    lexLe a b = true → lexLe b c = true → lexLe a c = true := by
  intro a
  induction a with
  | nil => intro b c _ _; rfl
  | cons x as_ ih =>
    intro b c h1 h2
    cases b with
    | nil => simp [lexLe] at h1
    | cons y bs =>
      cases c with
      | nil => simp [lexLe] at h2
      | cons z cs =>
        rcases (lexLe_cons _ _ _ _).mp h1 with h | ⟨he, hr⟩ <;>
          rcases (lexLe_cons _ _ _ _).mp h2 with g | ⟨ge, gr⟩ <;>
          refine (lexLe_cons _ _ _ _).mpr ?_
        · exact Or.inl (by omega)
        · exact Or.inl (by omega)
        · exact Or.inl (by omega)
        · exact Or.inr ⟨by omega, ih _ _ hr gr⟩

instance : IsTotal String (fun a b => strLeb a b = true) :=
  ⟨fun a b => lexLe_total a.toList b.toList⟩

instance : IsTrans String (fun a b => strLeb a b = true) :=
  ⟨fun a b c => lexLe_trans a.toList b.toList c.toList⟩

lemma mem_dedupFirst : ∀ (l seen : List String) (x : String),
    x ∈ dedupFirst seen l ↔ (x ∈ l ∧ x ∉ seen) := by
  intro l
  induction l with
  | nil => intro seen x; simp [dedupFirst]
  | cons y ys ih =>
    intro seen x
    simp only [dedupFirst]
    by_cases hy : y ∈ seen
    · rw [if_pos hy, ih]
      constructor
      · rintro ⟨h1, h2⟩; exact ⟨List.mem_cons_of_mem _ h1, h2⟩
      · rintro ⟨h1, h2⟩
        rcases List.mem_cons.mp h1 with rfl | h1
        · exact absurd hy h2
        · exact ⟨h1, h2⟩
    · rw [if_neg hy]
      simp only [List.mem_cons, ih]
      constructor
      · rintro (rfl | ⟨h1, h2⟩)
        · exact ⟨Or.inl rfl, hy⟩
        · exact ⟨Or.inr h1, fun hx => h2 (Or.inr hx)⟩
      · rintro ⟨rfl | h1, h2⟩
        · exact Or.inl rfl
        · by_cases hxy : x = y
          · exact Or.inl hxy
          · exact Or.inr ⟨h1, fun hx => hx.elim hxy h2⟩

lemma nodup_dedupFirst : ∀ (l seen : List String), (dedupFirst seen l).Nodup := by
  intro l
  induction l with
  | nil => intro seen; simp [dedupFirst]
  | cons y ys ih =>
    intro seen
    simp only [dedupFirst]
    by_cases hy : y ∈ seen
    · rw [if_pos hy]; exact ih seen
    · rw [if_neg hy]
      refine List.nodup_cons.mpr ⟨fun hmem => ?_, ih (y :: seen)⟩
      exact ((mem_dedupFirst ys (y :: seen) y).mp hmem).2 (List.mem_cons_self y seen)

lemma findSolverInfo_no_match (solver : String) :
    ∀ (registry : List SolverInfo) (acc : List String),
      (∀ s ∈ registry, solver ∉ s.names) →
      findSolverInfo solver registry acc =
        (Option.none, acc ++ registry.flatMap SolverInfo.names) := by
  intro registry
  induction registry with
  | nil => intro acc _; simp [findSolverInfo]
  | cons s rest ih =>
    intro acc h
    have hs : solver ∉ s.names := h s (List.mem_cons_self s rest)
    simp only [findSolverInfo, if_neg hs]
    rw [ih (acc ++ s.names) (fun t ht => h t (List.mem_cons_of_mem _ ht))]
    simp [List.append_assoc]

/-- **C9.**  When no descriptor's candidate set contains the selector, the
matching loop visits the whole registry and `load_solver` raises
`LookupError` (the spec's `SolverNotFoundError`) carrying the ascending
enumeration of the union of every descriptor's candidate names: the payload is
sorted, duplicate-free, and holds exactly the names occurring in some
descriptor's candidate set. -/
theorem load_solver_no_match (solver driverPath : String) (registry : List SolverInfo)
    (base : Nat) (h : ∀ s ∈ registry, solver ∉ s.names) :
    ∃ cands, ExecDriver.load_solver solver driverPath registry base =
        Except.error (PyErr.lookupError cands) ∧
      cands = sortedCandidates (registry.flatMap SolverInfo.names) ∧
      List.Sorted (fun a b => strLeb a b = true) cands ∧
      cands.Nodup ∧
      (∀ x, x ∈ cands ↔ ∃ s ∈ registry, x ∈ s.names) := by
  have hperm := List.perm_insertionSort (fun a b => strLeb a b = true)
    (dedupFirst [] (registry.flatMap SolverInfo.names))
  refine ⟨_, ?_, rfl, List.sorted_insertionSort _ _,
    hperm.nodup_iff.mpr (nodup_dedupFirst _ _), fun x => ?_⟩
  · show (match findSolverInfo solver registry [] with
      | (Option.none, names) => Except.error (PyErr.lookupError (sortedCandidates names))
      | (some info, _) => _) = _
    rw [findSolverInfo_no_match solver registry [] h]
    rfl
  · rw [sortedCandidates, hperm.mem_iff, mem_dedupFirst]
    simp [List.mem_flatMap]

/-- Witness for `load_solver_no_match` at a concrete registry. -/
theorem load_solver_no_match_w :
    ∃ cands, ExecDriver.load_solver "zzz" "minizinc" [infoBare, infoTagged] 0 =
        Except.error (PyErr.lookupError cands) ∧
      cands = sortedCandidates (List.flatMap [infoBare, infoTagged] SolverInfo.names) ∧
      List.Sorted (fun a b => strLeb a b = true) cands ∧
      cands.Nodup ∧
      (∀ x, x ∈ cands ↔ ∃ s ∈ [infoBare, infoTagged], x ∈ s.names) :=
  load_solver_no_match "zzz" "minizinc" [infoBare, infoTagged] 0 (by decide)

/-- **C2 (code bug): evaluation at the failing input.**  When the matched
descriptor omits the optional capability keys, `load_solver` does *not* leave
the `__init__` per-field defaults (`supportsFzn = True`, `tags = []`, ...):
lines 100-108 all reuse the fallback expression `ret.mznlib`, so every such
field ends up holding the mznlib string (here `""`), which is neither the
boolean nor the empty-list default the claim (and spec §4.3) state. -/
theorem load_solver_copy_paste_defaults :
    ∃ r, ExecDriver.load_solver "foo" "minizinc" [infoBare] 100 = Except.ok r ∧
      r.supportsFzn.data = PyData.pstr "" ∧
      r.supportsMzn.data = PyData.pstr "" ∧
      r.tags.data = PyData.pstr "" ∧
      r.stdFlags.data = PyData.pstr "" ∧
      r.extraFlags.data = PyData.pstr "" ∧
      r.needsSolns2Out.data = PyData.pstr "" ∧
      r.needsMznExecutable.data = PyData.pstr "" ∧
      r.needsStdlibDir.data = PyData.pstr "" ∧
      r.isGUIApplication.data = PyData.pstr "" ∧
      r.id.data = PyData.pstr "org.example.foo" ∧
      PyData.pstr "" ≠ PyData.pbool true ∧
      PyData.pstr "" ≠ PyData.pbool false ∧
      PyData.pstr "" ≠ PyData.plist [] :=
  ⟨_, rfl, rfl, rfl, rfl, rfl, rfl, rfl, rfl, rfl, rfl, rfl,
   fun h => PyData.noConfusion h, fun h => PyData.noConfusion h,
   fun h => PyData.noConfusion h⟩

/-- Python `str()` for the values `to_json` renders: the version components
(ints) and strings.  The other cases are never stringified by the embedded
code paths. -/
def pyStrOf (d : PyData) : String :=
  match d with
  | PyData.pstr s => s
  | PyData.pint n => toString n
  | PyData.pbool b => if b then "True" else "False"
  | PyData.pnone => "None"
  | PyData.plist _ => ""
  | PyData.ptuple _ => ""

/-- `".".join([str(i) for i in self.version])` (line 198): joining the items
of the version sequence.  Iterating a string yields its characters; iterating
a non-sequence raises `TypeError` in Python and is unreachable for records
built by `__init__`/`load_solver`, so it is mapped to `""`. -/
def versionJoin (d : PyData) : String :=
  match d with
  | PyData.ptuple l => String.intercalate "." (l.map pyStrOf)
  | PyData.plist l => String.intercalate "." (l.map pyStrOf)
  | PyData.pstr s => String.intercalate "." (s.toList.map fun c => String.mk [c])
  | _ => ""

/-- `self.name.lower()` — ASCII lowering, which covers the solver names this
code consumes. -/
def lowerStr (s : String) : String := String.mk (s.toList.map Char.toLower)

/-- Insert a key-value pair into a key-sorted pair list. -/
def insertPair (x : String × PyData) :
    List (String × PyData) → List (String × PyData)
  | [] => [x]
  | y :: ys => if strLeb x.1 y.1 then x :: y :: ys else y :: insertPair x ys

/-- Sort a pair list by key — the `sort_keys=True` of `json.dumps`
(line 214). -/
def sortPairs : List (String × PyData) → List (String × PyData)
  | [] => []
  | x :: xs => insertPair x (sortPairs xs)

/-- `ExecDriver.to_json` (lines 195-214), modelled as the ordered key/value
sequence the call serializes (the renderer `json.dumps(..., sort_keys=True,
indent=4)` writes exactly these pairs in this order): the `info` dict of lines
196-208 — which contains `name`, `version` (joined with dots), `mznlib`,
`tags`, `executable` and the six feature booleans, but neither `stdFlags` nor
`extraFlags` — plus the `id` key of lines 209-212: the current `id` when it is
not `None`, else `"org.minizinc.python." + self.name.lower()`. -/
def ExecDriver.to_json (r : ExecDriverState) : List (String × PyData) :=
  sortPairs [
    ("name", r.name.data),
    ("version", PyData.pstr (versionJoin r.version.data)),
    ("mznlib", r.mznlib.data),
    ("tags", r.tags.data),
    ("executable", r.executable.data),
    ("supportsMzn", r.supportsMzn.data),
    ("supportsFzn", r.supportsFzn.data),
    ("needsSolns2Out", r.needsSolns2Out.data),
    ("needsMznExecutable", r.needsMznExecutable.data),
    ("needsStdlibDir", r.needsStdlibDir.data),
    ("isGUIApplication", r.isGUIApplication.data),
    ("id", match r.id.data with
      | PyData.pnone =>
        PyData.pstr ("org.minizinc.python." ++ lowerStr (pyStrOf r.name.data))
      | d => d)]

/-- Value of a key in a serialized document. -/
def jsonGet (doc : List (String × PyData)) (key : String) : Option PyData :=
  (doc.find? fun p => p.1 == key).map fun p => p.2

/-- **C8** (amended).  `to_json` produces a document with keys sorted that
contains the capability fields `name`, `version`, `mznlib`, `tags`,
`executable`, `supportsMzn`, `supportsFzn`, `needsSolns2Out`,
`needsMznExecutable`, `needsStdlibDir`, `isGUIApplication` plus an `id` key —
but *not* the standard-flags (`stdFlags`) or extra-flags (`extraFlags`)
fields, which lines 196-208 omit (see the counterexample).  The `id` value is
the record's identity exactly when the identity is non-null, and otherwise
`"org.minizinc.python."` followed by the lowercased record name. -/
theorem to_json_keys_and_id (r : ExecDriverState) :
    (ExecDriver.to_json r).map Prod.fst =
      ["executable", "id", "isGUIApplication", "mznlib", "name",
       "needsMznExecutable", "needsSolns2Out", "needsStdlibDir",
       "supportsFzn", "supportsMzn", "tags", "version"] ∧
    List.Sorted (fun a b => strLeb a b = true) ((ExecDriver.to_json r).map Prod.fst) ∧
    (r.id.data = PyData.pnone →
      jsonGet (ExecDriver.to_json r) "id" =
        some (PyData.pstr ("org.minizinc.python." ++ lowerStr (pyStrOf r.name.data)))) ∧
    (∀ s, r.id.data = PyData.pstr s →
      jsonGet (ExecDriver.to_json r) "id" = some (PyData.pstr s)) := by
  have hk : (ExecDriver.to_json r).map Prod.fst =
      ["executable", "id", "isGUIApplication", "mznlib", "name",
       "needsMznExecutable", "needsSolns2Out", "needsStdlibDir",
       "supportsFzn", "supportsMzn", "tags", "version"] := rfl
  have hbase : jsonGet (ExecDriver.to_json r) "id" =
      some (match r.id.data with
        | PyData.pnone =>
          PyData.pstr ("org.minizinc.python." ++ lowerStr (pyStrOf r.name.data))
        | d => d) := rfl
  refine ⟨hk, ?_, fun h => ?_, fun s h => ?_⟩
  · rw [hk]; decide
  · rw [hbase, h]
  · rw [hbase, h]

/-- **C8 counterexample.**  Serializing a record whose `stdFlags` is the
non-empty list `["-p"]` yields a document with *no* `stdFlags` or
`extraFlags` key at all: the claim that the document contains every
capability field including the standard-flags and extra-flags fields is
false. -/
theorem to_json_missing_flag_fields :
    jsonGet (ExecDriver.to_json sampleDriver) "stdFlags" = Option.none ∧
    jsonGet (ExecDriver.to_json sampleDriver) "extraFlags" = Option.none ∧
    sampleDriver.stdFlags.data = PyData.plist [PyData.pstr "-p"] :=
  ⟨rfl, rfl, rfl⟩

/-- Witness for `to_json_keys_and_id`: the concrete record's non-null identity
is serialized as its `id` value. -/
theorem to_json_keys_and_id_w :
    jsonGet (ExecDriver.to_json sampleDriver) "id" = some (PyData.pstr "org.test") :=
  (to_json_keys_and_id sampleDriver).2.2.2 "org.test" rfl

/-- A command-line list entry: `subprocess.run` receives the Python list
as-is, so an entry is a string/path, or the bare int that
`cmd.extend(['-p', processes])` inserts. -/
inductive Arg where
  | s (v : String)
  | i (v : Int)

/-- The temporary-artifact filesystem: path ↦ serialized document.  A path is
a key — writing replaces any file at that path, deleting removes it. -/
structure FS where
  files : List (String × List (String × PyData))

/-- Create/overwrite the file at `p`. -/
def fsWrite (fs : FS) (p : String) (c : List (String × PyData)) : FS :=
  ⟨(p, c) :: fs.files.filter fun e => !(e.1 == p)⟩

/-- Contents of the file at `p`, if it exists. -/
def fsRead (fs : FS) (p : String) : Option (List (String × PyData)) :=
  (fs.files.find? fun e => e.1 == p).map fun e => e.2

/-- Delete the file at `p`. -/
def fsDelete (fs : FS) (p : String) : FS :=
  ⟨fs.files.filter fun e => !(e.1 == p)⟩

/-- External state threaded through `_gen_solver` and `solve`: the temporary
files, a counter supplying the fresh unique names that
`tempfile.NamedTemporaryFile` guarantees, and the log of spawned processes. -/
structure World where
  fs : FS
  counter : Nat
  spawned : List (List Arg)

/-- The fresh unique name `tempfile.NamedTemporaryFile(prefix="minizinc_solver_",
suffix=".msc")` produces (line 141), numbered by the world's counter. -/
def tempName (n : Nat) : String :=
  "minizinc_solver_" ++ toString n ++ ".msc"

/-- The string a non-null `self.id` holds (by construction `id` is `None` or a
string). -/
def pyIdStr (d : PyData) : String :=
  match d with
  | PyData.pstr s => s
  | _ => ""

/-- `ExecDriver._gen_solver` (lines 137-151), a context manager used as
`with self._gen_solver() as solver: <body>`.  If `self.id is None`: create a
fresh uniquely named temporary file, write `self.to_json()` into it (`id` is
still `None` here, so the document carries the fallback id), set `self.id` to
the file's name (a plain store — `"id"` is not intercepted; `id` objects are
never compared with `is`, so the fresh object's `ref` is immaterial), and run
the body with the yielded `self.id`; the `finally` block then closes (hence
deletes) the temporary file and resets `self.id = None`, whether the body
returned or raised.  If `self.id` is non-null, the body just receives it and
no filesystem action occurs. -/
def ExecDriver.gen_solver {α : Type}
    (body : String → ExecDriverState → World → Except PyErr α × ExecDriverState × World)
    (r : ExecDriverState) (w : World) : Except PyErr α × ExecDriverState × World :=
  match r.id.data with
  | PyData.pnone =>
    let path := tempName w.counter
    let w1 : World := { w with fs := fsWrite w.fs path (ExecDriver.to_json r),
                               counter := w.counter + 1 }
    let r1 := r.setattr "id" ⟨PyData.pstr path, 0⟩
    let out := body path r1 w1
    (out.1, out.2.1.setattr "id" pyNoneV,
      { out.2.2 with fs := fsDelete out.2.2.fs path })
  | d => body (pyIdStr d) r w

lemma setattr_id_data (r : ExecDriverState) (v : PyVal) :
    (r.setattr "id" v).id = v := by
  rw [setattr_id, setattrRaw_id_self]

lemma find_not_filtered (p : String) :
    ∀ l : List (String × List (String × PyData)),
      (l.filter fun e => !(e.1 == p)).find? (fun e => e.1 == p) = Option.none := by
  intro l
  induction l with
  | nil => rfl
  | cons e rest ih =>
    by_cases he : e.1 = p
    · simp [List.filter_cons, he, ih]
    · simp [List.filter_cons, List.find?_cons, he, ih]

lemma fsRead_fsDelete_self (fs : FS) (p : String) :
    fsRead (fsDelete fs p) p = Option.none := by
  unfold fsRead fsDelete
  rw [find_not_filtered]
  rfl

lemma fsWrite_fresh (fs : FS) (p : String) (c : List (String × PyData))
    (h : fsRead fs p = Option.none) :
    (fsWrite fs p c).files = (p, c) :: fs.files := by
  have hfind : fs.files.find? (fun e => e.1 == p) = Option.none :=
    Option.map_eq_none'.mp h
  have hall := List.find?_eq_none.mp hfind
  have hfilter : fs.files.filter (fun e => !(e.1 == p)) = fs.files :=
    List.filter_eq_self.mpr fun a ha => by simpa using hall a ha
  unfold fsWrite
  rw [hfilter]

/-- **C3.**  Materializing a record whose identity is null: exactly one fresh
temporary artifact is written, holding the record's serialization (with the
fallback id, since it is written before `id` is set); the body of the scope
runs with `identity` set to that artifact's path, which is also the yielded
reference; and on every exit path — the body's result, whether a value or a
raised error, is forwarded unchanged — the artifact is deleted and the
identity is null again afterwards. -/
theorem gen_solver_scope {α : Type}
    (body : String → ExecDriverState → World → Except PyErr α × ExecDriverState × World)
    (r : ExecDriverState) (w : World)
    (h : r.id.data = PyData.pnone)
    (hfresh : fsRead w.fs (tempName w.counter) = Option.none) :
    (r.setattr "id" ⟨PyData.pstr (tempName w.counter), 0⟩).id.data =
      PyData.pstr (tempName w.counter) ∧
    (fsWrite w.fs (tempName w.counter) (ExecDriver.to_json r)).files =
      (tempName w.counter, ExecDriver.to_json r) :: w.fs.files ∧
    ExecDriver.gen_solver body r w =
      ((body (tempName w.counter)
          (r.setattr "id" ⟨PyData.pstr (tempName w.counter), 0⟩)
          { w with fs := fsWrite w.fs (tempName w.counter) (ExecDriver.to_json r),
                   counter := w.counter + 1 }).1,
       (body (tempName w.counter)
          (r.setattr "id" ⟨PyData.pstr (tempName w.counter), 0⟩)
          { w with fs := fsWrite w.fs (tempName w.counter) (ExecDriver.to_json r),
                   counter := w.counter + 1 }).2.1.setattr "id" pyNoneV,
       { (body (tempName w.counter)
            (r.setattr "id" ⟨PyData.pstr (tempName w.counter), 0⟩)
            { w with fs := fsWrite w.fs (tempName w.counter) (ExecDriver.to_json r),
                     counter := w.counter + 1 }).2.2 with
         fs := fsDelete (body (tempName w.counter)
            (r.setattr "id" ⟨PyData.pstr (tempName w.counter), 0⟩)
            { w with fs := fsWrite w.fs (tempName w.counter) (ExecDriver.to_json r),
                     counter := w.counter + 1 }).2.2.fs (tempName w.counter) }) ∧
    (ExecDriver.gen_solver body r w).2.1.id.data = PyData.pnone ∧
    fsRead (ExecDriver.gen_solver body r w).2.2.fs (tempName w.counter) =
      Option.none := by
  have hunf : ExecDriver.gen_solver body r w =
      ((body (tempName w.counter)
          (r.setattr "id" ⟨PyData.pstr (tempName w.counter), 0⟩)
          { w with fs := fsWrite w.fs (tempName w.counter) (ExecDriver.to_json r),
                   counter := w.counter + 1 }).1,
       (body (tempName w.counter)
          (r.setattr "id" ⟨PyData.pstr (tempName w.counter), 0⟩)
          { w with fs := fsWrite w.fs (tempName w.counter) (ExecDriver.to_json r),
                   counter := w.counter + 1 }).2.1.setattr "id" pyNoneV,
       { (body (tempName w.counter)
            (r.setattr "id" ⟨PyData.pstr (tempName w.counter), 0⟩)
            { w with fs := fsWrite w.fs (tempName w.counter) (ExecDriver.to_json r),
                     counter := w.counter + 1 }).2.2 with
         fs := fsDelete (body (tempName w.counter)
            (r.setattr "id" ⟨PyData.pstr (tempName w.counter), 0⟩)
            { w with fs := fsWrite w.fs (tempName w.counter) (ExecDriver.to_json r),
                     counter := w.counter + 1 }).2.2.fs (tempName w.counter) }) := by
    unfold ExecDriver.gen_solver
    rw [h]
  refine ⟨by rw [setattr_id_data], fsWrite_fresh _ _ _ hfresh, hunf, ?_, ?_⟩
  · rw [hunf]
    show ((body _ _ _).2.1.setattr "id" pyNoneV).id.data = PyData.pnone
    rw [setattr_id_data]
    rfl
  · rw [hunf]
    exact fsRead_fsDelete_self _ _

/-- A body that raises, exercising the failure exit path of the scope. -/
def bodyFail : String → ExecDriverState → World →
    Except PyErr Unit × ExecDriverState × World :=
  fun _ r w => (Except.error PyErr.attributeError, r, w)

/-- `sampleDriver` with its identity cleared. -/
def sampleAnon : ExecDriverState := { sampleDriver with id := pyNoneV }

/-- An empty world. -/
def w0 : World := ⟨⟨[]⟩, 0, []⟩

/-- Witness for `gen_solver_scope`: even when the body raises, the scope ends
with the identity null and the artifact gone. -/
theorem gen_solver_scope_w :
    (ExecDriver.gen_solver bodyFail sampleAnon w0).2.1.id.data = PyData.pnone ∧
    fsRead (ExecDriver.gen_solver bodyFail sampleAnon w0).2.2.fs (tempName 0) =
      Option.none :=
  ⟨(gen_solver_scope bodyFail sampleAnon w0 rfl rfl).2.2.2.1,
   (gen_solver_scope bodyFail sampleAnon w0 rfl rfl).2.2.2.2⟩

/-- Whether `needle` occurs as a contiguous substring of `hay`. -/
def containsSub (needle : List Char) : List Char → Bool
  | [] => needle.isEmpty
  | c :: rest => needle.isPrefixOf (c :: rest) || containsSub needle rest

/-- Python's `x in v` as used by `solve` on `self.stdFlags`: membership by
`==` for a list or tuple, substring test for a string (which is what
`stdFlags` holds after the `load_solver` copy-paste fallback), `False`
otherwise (a non-container would raise `TypeError`; never exercised).  List
elements are compared to the flag string by value; a non-string element never
equals it. -/
def pyIn (x : String) (v : PyData) : Bool :=
  match v with
  | PyData.plist l =>
    l.any fun e => match e with | PyData.pstr s => s == x | _ => false
  | PyData.ptuple l =>
    l.any fun e => match e with | PyData.pstr s => s == x | _ => false
  | PyData.pstr s => containsSub x.toList s.toList
  | _ => false

/-- A solve request: the keyword arguments of `ExecDriver.solve` (line 161)
plus the instance bundle's file paths (`instance.files`, consumed opaquely).
`nr_solutions` is accepted but unused by the source (a TODO at line 167). -/
structure SolveReq where
  nr_solutions : Option Int := Option.none
  processes : Option Int := Option.none
  random_seed : Option Int := Option.none
  free_search : Bool := false
  files : List String := []

/-- The opaque value `Result.from_process(output)` produces — the result
decoder is an external collaborator, so only the invoked command is
recorded. -/
structure SolveResult where
  cmd : List Arg

/-- The command-assembly part of `ExecDriver.solve` (lines 164-185): the fixed
base tokens `[self.driver, "--solver", solver, "--output-mode", "json",
"--output-time"]`, then for each requested option a capability gate on
`self.stdFlags` — raising `NotImplementedError` naming the missing flag — and
the emitted tokens `-p <processes>` / `-r <random_seed>` / `-f`, in that
order, then the instance files in bundle order. -/
def buildCmd (r : ExecDriverState) (solverRef : String) (req : SolveReq) :
    Except PyErr (List Arg) := do
  let cmd0 := [Arg.s (pyStrOf r.driver.data), Arg.s "--solver", Arg.s solverRef,
               Arg.s "--output-mode", Arg.s "json", Arg.s "--output-time"]
  let cmd1 ← match req.processes with
    | Option.none => pure cmd0
    | some p =>
      if pyIn "-p" r.stdFlags.data then pure (cmd0 ++ [Arg.s "-p", Arg.i p])
      else throw (PyErr.notImplementedError "-p")
  let cmd2 ← match req.random_seed with
    | Option.none => pure cmd1
    | some sd =>
      if pyIn "-r" r.stdFlags.data then pure (cmd1 ++ [Arg.s "-r", Arg.i sd])
      else throw (PyErr.notImplementedError "-r")
  let cmd3 ←
    if req.free_search then
      if pyIn "-f" r.stdFlags.data then pure (cmd2 ++ [Arg.s "-f"])
      else throw (PyErr.notImplementedError "-f")
    else pure cmd2
  pure (cmd3 ++ req.files.map Arg.s)

/-- `ExecDriver.solve` (lines 161-188): inside the `_gen_solver` scope, build
the command; a gate failure propagates out of the scope (the `finally` still
runs).  On success the process is spawned (`subprocess.run` with
`check=False`: a non-zero exit is not an error of this layer) and its output
is handed to the external result decoder. -/
def ExecDriver.solve (r : ExecDriverState) (w : World) (req : SolveReq) :
    Except PyErr SolveResult × ExecDriverState × World :=
  ExecDriver.gen_solver
    (fun solverRef r1 w1 =>
      match buildCmd r1 solverRef req with
      | Except.error e => (Except.error e, r1, w1)
      | Except.ok cmd =>
        (Except.ok ⟨cmd⟩, r1, { w1 with spawned := w1.spawned ++ [cmd] }))
    r w

lemma gen_solver_nonnull {α : Type}
    (body : String → ExecDriverState → World → Except PyErr α × ExecDriverState × World)
    (r : ExecDriverState) (w : World) (hid : r.id.data ≠ PyData.pnone) :
    ExecDriver.gen_solver body r w = body (pyIdStr r.id.data) r w := by
  unfold ExecDriver.gen_solver
  cases hd : r.id.data with
  | pnone => exact absurd hd hid
  | pstr s => rfl
  | pint n => rfl
  | pbool b => rfl
  | plist l => rfl
  | ptuple l => rfl

lemma gen_solver_null {α : Type}
    (body : String → ExecDriverState → World → Except PyErr α × ExecDriverState × World)
    (r : ExecDriverState) (w : World) (h : r.id.data = PyData.pnone) :
    ExecDriver.gen_solver body r w =
      ((body (tempName w.counter)
          (r.setattr "id" ⟨PyData.pstr (tempName w.counter), 0⟩)
          { w with fs := fsWrite w.fs (tempName w.counter) (ExecDriver.to_json r),
                   counter := w.counter + 1 }).1,
       (body (tempName w.counter)
          (r.setattr "id" ⟨PyData.pstr (tempName w.counter), 0⟩)
          { w with fs := fsWrite w.fs (tempName w.counter) (ExecDriver.to_json r),
                   counter := w.counter + 1 }).2.1.setattr "id" pyNoneV,
       { (body (tempName w.counter)
            (r.setattr "id" ⟨PyData.pstr (tempName w.counter), 0⟩)
            { w with fs := fsWrite w.fs (tempName w.counter) (ExecDriver.to_json r),
                     counter := w.counter + 1 }).2.2 with
         fs := fsDelete (body (tempName w.counter)
            (r.setattr "id" ⟨PyData.pstr (tempName w.counter), 0⟩)
            { w with fs := fsWrite w.fs (tempName w.counter) (ExecDriver.to_json r),
                     counter := w.counter + 1 }).2.2.fs (tempName w.counter) }) := by
  unfold ExecDriver.gen_solver
  rw [h]

lemma setattr_id_stdFlags (r : ExecDriverState) (v : PyVal) :
    (r.setattr "id" v).stdFlags = r.stdFlags := by
  rw [setattr_id]; rfl

/-- **C4.**  For a record whose `stdFlags` supports `-p`, `-r` and `-f`, and a
request with a process count, a random seed and free search, the assembled
command is exactly: base-tool path, `--solver`, the materialized reference,
`--output-mode`, `json`, `--output-time`, `-p`, the count, `-r`, the seed,
`-f`, then the instance files in bundle order; and `solve` on a record with a
non-null identity spawns exactly this command with that identity as the
reference. -/
theorem solve_cmd_assembly (r : ExecDriverState) (w : World) (req : SolveReq)
    (p sd : Int) (sid : String)
    (hp : req.processes = some p) (hs : req.random_seed = some sd)
    (hf : req.free_search = true)
    (h1 : pyIn "-p" r.stdFlags.data = true)
    (h2 : pyIn "-r" r.stdFlags.data = true)
    (h3 : pyIn "-f" r.stdFlags.data = true) :
    (∀ solverRef, buildCmd r solverRef req =
      Except.ok ([Arg.s (pyStrOf r.driver.data), Arg.s "--solver", Arg.s solverRef,
        Arg.s "--output-mode", Arg.s "json", Arg.s "--output-time",
        Arg.s "-p", Arg.i p, Arg.s "-r", Arg.i sd, Arg.s "-f"] ++
        req.files.map Arg.s)) ∧
    (r.id.data = PyData.pstr sid →
      (ExecDriver.solve r w req).2.2.spawned = w.spawned ++
        [[Arg.s (pyStrOf r.driver.data), Arg.s "--solver", Arg.s sid,
          Arg.s "--output-mode", Arg.s "json", Arg.s "--output-time",
          Arg.s "-p", Arg.i p, Arg.s "-r", Arg.i sd, Arg.s "-f"] ++
          req.files.map Arg.s] ∧
      (ExecDriver.solve r w req).1 =
        Except.ok ⟨[Arg.s (pyStrOf r.driver.data), Arg.s "--solver", Arg.s sid,
          Arg.s "--output-mode", Arg.s "json", Arg.s "--output-time",
          Arg.s "-p", Arg.i p, Arg.s "-r", Arg.i sd, Arg.s "-f"] ++
          req.files.map Arg.s⟩) := by
  have hb : ∀ solverRef, buildCmd r solverRef req =
      Except.ok ([Arg.s (pyStrOf r.driver.data), Arg.s "--solver", Arg.s solverRef,
        Arg.s "--output-mode", Arg.s "json", Arg.s "--output-time",
        Arg.s "-p", Arg.i p, Arg.s "-r", Arg.i sd, Arg.s "-f"] ++
        req.files.map Arg.s) := by
    intro solverRef
    unfold buildCmd
    rw [hp, hs, hf]
    simp [h1, h2, h3]
    rfl
  refine ⟨hb, fun hid => ?_⟩
  have hnn : r.id.data ≠ PyData.pnone := by
    rw [hid]; exact fun hc => PyData.noConfusion hc
  have href : pyIdStr r.id.data = sid := by rw [hid]; rfl
  have hsolve : ExecDriver.solve r w req =
      (Except.ok ⟨[Arg.s (pyStrOf r.driver.data), Arg.s "--solver", Arg.s sid,
          Arg.s "--output-mode", Arg.s "json", Arg.s "--output-time",
          Arg.s "-p", Arg.i p, Arg.s "-r", Arg.i sd, Arg.s "-f"] ++
          req.files.map Arg.s⟩, r,
        { w with spawned := w.spawned ++
          [[Arg.s (pyStrOf r.driver.data), Arg.s "--solver", Arg.s sid,
            Arg.s "--output-mode", Arg.s "json", Arg.s "--output-time",
            Arg.s "-p", Arg.i p, Arg.s "-r", Arg.i sd, Arg.s "-f"] ++
            req.files.map Arg.s] }) := by
    unfold ExecDriver.solve
    rw [gen_solver_nonnull _ r w hnn, href]
    simp only [hb sid]
  rw [hsolve]
  exact ⟨rfl, rfl⟩

/-- **C5.**  A request that sets a process count, a random seed, or free
search against a record whose `stdFlags` lacks the corresponding flag makes
`solve` raise `NotImplementedError` (the spec's `UnsupportedCapabilityError`)
whose message names a requested-but-missing flag, and no process is spawned:
the world's spawn log is unchanged. -/
theorem solve_unsupported_flag (r : ExecDriverState) (w : World) (req : SolveReq)
    (h : (req.processes.isSome = true ∧ pyIn "-p" r.stdFlags.data = false) ∨
         (req.random_seed.isSome = true ∧ pyIn "-r" r.stdFlags.data = false) ∨
         (req.free_search = true ∧ pyIn "-f" r.stdFlags.data = false)) :
    ∃ flag,
      ((flag = "-p" ∧ req.processes.isSome = true ∧ pyIn "-p" r.stdFlags.data = false) ∨
       (flag = "-r" ∧ req.random_seed.isSome = true ∧ pyIn "-r" r.stdFlags.data = false) ∨
       (flag = "-f" ∧ req.free_search = true ∧ pyIn "-f" r.stdFlags.data = false)) ∧
      (ExecDriver.solve r w req).1 = Except.error (PyErr.notImplementedError flag) ∧
      (ExecDriver.solve r w req).2.2.spawned = w.spawned := by
  have hfail : ∃ flag,
      ((flag = "-p" ∧ req.processes.isSome = true ∧ pyIn "-p" r.stdFlags.data = false) ∨
       (flag = "-r" ∧ req.random_seed.isSome = true ∧ pyIn "-r" r.stdFlags.data = false) ∨
       (flag = "-f" ∧ req.free_search = true ∧ pyIn "-f" r.stdFlags.data = false)) ∧
      ∀ (r' : ExecDriverState), r'.stdFlags = r.stdFlags →
        ∀ ref, buildCmd r' ref req = Except.error (PyErr.notImplementedError flag) := by
    rcases hp : req.processes with _ | p
    · rcases hs : req.random_seed with _ | sd
      · rcases h with ⟨h1, _⟩ | ⟨h1, _⟩ | ⟨h1, h2⟩
        · rw [hp] at h1; exact absurd h1 (by simp)
        · rw [hs] at h1; exact absurd h1 (by simp)
        · refine ⟨"-f", Or.inr (Or.inr ⟨rfl, h1, h2⟩), fun r' hstd ref => ?_⟩
          unfold buildCmd
          rw [hp, hs, h1, hstd]
          simp [h2]
          rfl
      · cases hbr : pyIn "-r" r.stdFlags.data
        · refine ⟨"-r", Or.inr (Or.inl ⟨rfl, rfl, rfl⟩),
            fun r' hstd ref => ?_⟩
          unfold buildCmd
          rw [hp, hs, hstd]
          simp [hbr]
          rfl
        · rcases h with ⟨h1, _⟩ | ⟨_, h2⟩ | ⟨h1, h2⟩
          · rw [hp] at h1; exact absurd h1 (by simp)
          · rw [hbr] at h2; exact absurd h2 (by simp)
          · refine ⟨"-f", Or.inr (Or.inr ⟨rfl, h1, h2⟩), fun r' hstd ref => ?_⟩
            unfold buildCmd
            rw [hp, hs, h1, hstd]
            simp [hbr, h2]
            rfl
    · cases hbp : pyIn "-p" r.stdFlags.data
      · refine ⟨"-p", Or.inl ⟨rfl, rfl, rfl⟩, fun r' hstd ref => ?_⟩
        unfold buildCmd
        rw [hp, hstd]
        simp [hbp]
        rfl
      · rcases hs : req.random_seed with _ | sd
        · rcases h with ⟨_, h2⟩ | ⟨h1, _⟩ | ⟨h1, h2⟩
          · rw [hbp] at h2; exact absurd h2 (by simp)
          · rw [hs] at h1; exact absurd h1 (by simp)
          · refine ⟨"-f", Or.inr (Or.inr ⟨rfl, h1, h2⟩), fun r' hstd ref => ?_⟩
            unfold buildCmd
            rw [hp, hs, h1, hstd]
            simp [hbp, h2]
            rfl
        · cases hbr : pyIn "-r" r.stdFlags.data
          · refine ⟨"-r", Or.inr (Or.inl ⟨rfl, rfl, rfl⟩),
              fun r' hstd ref => ?_⟩
            unfold buildCmd
            rw [hp, hs, hstd]
            simp [hbp, hbr]
            rfl
          · rcases h with ⟨_, h2⟩ | ⟨_, h2⟩ | ⟨h1, h2⟩
            · rw [hbp] at h2; exact absurd h2 (by simp)
            · rw [hbr] at h2; exact absurd h2 (by simp)
            · refine ⟨"-f", Or.inr (Or.inr ⟨rfl, h1, h2⟩), fun r' hstd ref => ?_⟩
              unfold buildCmd
              rw [hp, hs, h1, hstd]
              simp [hbp, hbr, h2]
              rfl
  obtain ⟨flag, hflag, hbuild⟩ := hfail
  by_cases hnull : r.id.data = PyData.pnone
  · refine ⟨flag, hflag, ?_, ?_⟩
    · unfold ExecDriver.solve
      rw [gen_solver_null _ r w hnull]
      simp only [hbuild (r.setattr "id" ⟨PyData.pstr (tempName w.counter), 0⟩)
        (setattr_id_stdFlags r _) (tempName w.counter)]
    · unfold ExecDriver.solve
      rw [gen_solver_null _ r w hnull]
      simp only [hbuild (r.setattr "id" ⟨PyData.pstr (tempName w.counter), 0⟩)
        (setattr_id_stdFlags r _) (tempName w.counter)]
  · refine ⟨flag, hflag, ?_, ?_⟩
    · unfold ExecDriver.solve
      rw [gen_solver_nonnull _ r w hnull]
      simp only [hbuild r rfl (pyIdStr r.id.data)]
    · unfold ExecDriver.solve
      rw [gen_solver_nonnull _ r w hnull]
      simp only [hbuild r rfl (pyIdStr r.id.data)]

/-- `sampleDriver` with all three standard flags declared. -/
def sampleFull : ExecDriverState :=
  { sampleDriver with
    stdFlags := ⟨PyData.plist [PyData.pstr "-p", PyData.pstr "-r", PyData.pstr "-f"], 6⟩ }

/-- A request exercising all three gated options. -/
def req47 : SolveReq :=
  { processes := some 4, random_seed := some 7, free_search := true,
    files := ["model.mzn", "data.dzn"] }

/-- Witness for `solve_cmd_assembly` at the concrete request of the claim
(`processes = 4`, `random_seed = 7`, `free_search = true`). -/
theorem solve_cmd_assembly_w :
    buildCmd sampleFull "ref0" req47 =
      Except.ok [Arg.s "minizinc", Arg.s "--solver", Arg.s "ref0",
        Arg.s "--output-mode", Arg.s "json", Arg.s "--output-time",
        Arg.s "-p", Arg.i 4, Arg.s "-r", Arg.i 7, Arg.s "-f",
        Arg.s "model.mzn", Arg.s "data.dzn"] ∧
    (ExecDriver.solve sampleFull w0 req47).2.2.spawned =
      [[Arg.s "minizinc", Arg.s "--solver", Arg.s "org.test",
        Arg.s "--output-mode", Arg.s "json", Arg.s "--output-time",
        Arg.s "-p", Arg.i 4, Arg.s "-r", Arg.i 7, Arg.s "-f",
        Arg.s "model.mzn", Arg.s "data.dzn"]] :=
  ⟨(solve_cmd_assembly sampleFull w0 req47 4 7 "org.test"
      rfl rfl rfl rfl rfl rfl).1 "ref0",
   ((solve_cmd_assembly sampleFull w0 req47 4 7 "org.test"
      rfl rfl rfl rfl rfl rfl).2 rfl).1⟩

/-- A request asking only for a random seed. -/
def reqSeed : SolveReq := { random_seed := some 5 }

/-- Witness for `solve_unsupported_flag`: `sampleDriver` declares only `-p`,
so a seed request fails and spawns nothing. -/
theorem solve_unsupported_flag_w :
    ∃ flag,
      ((flag = "-p" ∧ reqSeed.processes.isSome = true ∧
          pyIn "-p" sampleDriver.stdFlags.data = false) ∨
       (flag = "-r" ∧ reqSeed.random_seed.isSome = true ∧
          pyIn "-r" sampleDriver.stdFlags.data = false) ∨
       (flag = "-f" ∧ reqSeed.free_search = true ∧
          pyIn "-f" sampleDriver.stdFlags.data = false)) ∧
      (ExecDriver.solve sampleDriver w0 reqSeed).1 =
        Except.error (PyErr.notImplementedError flag) ∧
      (ExecDriver.solve sampleDriver w0 reqSeed).2.2.spawned = w0.spawned :=
  solve_unsupported_flag sampleDriver w0 reqSeed (Or.inr (Or.inl ⟨rfl, rfl⟩))

/-- A base-driver handle: a loaded native library (`ctypes.CDLL`, opaque) or
the path of an executable. -/
inductive DriverHandle where
  | lib (h : Nat)
  | exec (p : String)

/-- `find_minizinc` (lines 249-270).  `libLoad` is the outcome of
`cdll.LoadLibrary(name)` under the given search path (`some` handle, or
`Option.none` for the `OSError` it raises when the library cannot be loaded);
`whichResult` is the outcome of `shutil.which(name, path=path)`.  The library
is attempted first; on `OSError` the executable is looked up (wrapped into a
`Path` when found); when both fail the function returns `None`. -/
def find_minizinc (libLoad : Option Nat) (whichResult : Option String) :
    Option DriverHandle :=
  match libLoad with
  | some h => some (DriverHandle.lib h)
  | Option.none =>
    match whichResult with
    | some p => some (DriverHandle.exec p)
    | Option.none => Option.none

/-- Outcome of the module-level `load_solver` dispatch: the library-backed
driver (`LibDriver.load_solver` — an unimplemented stub, the abstract class
body), a configured `ExecDriver`, or an error. -/
inductive LoadedDriver where
  | libDriver
  | execDriver (r : ExecDriverState)

/-- Module-level `load_solver` (lines 231-246): fall back to `default_driver`
when no handle is passed, dispatch a library handle to `LibDriver`, a path to
`ExecDriver.load_solver`, and raise `FileExistsError("MiniZinc driver not
found")` (the spec's `DriverNotFoundError`) when there is no handle at all. -/
def load_solver (solver : String) (minizinc default_driver : Option DriverHandle)
    (registry : List SolverInfo) (base : Nat) : Except PyErr LoadedDriver :=
  let m := match minizinc with
    | Option.none => default_driver
    | some x => some x
  match m with
  | some (DriverHandle.lib _) => Except.ok LoadedDriver.libDriver
  | some (DriverHandle.exec p) =>
    match ExecDriver.load_solver solver p registry base with
    | Except.error e => Except.error e
    | Except.ok r => Except.ok (LoadedDriver.execDriver r)
  | Option.none => Except.error PyErr.fileExistsError

/-- **C6.**  Driver detection attempts the native library first — a successful
load yields the library handle regardless of any executable — then, on
`OSError`, looks for an executable of the name on the search path; when
neither attempt succeeds, `find_minizinc` yields no handle and using that
result (the module-level `load_solver`, with no other default driver
configured) fails with `FileExistsError` "MiniZinc driver not found" — the
spec's `DriverNotFoundError`. -/
theorem find_minizinc_order (solver : String) (registry : List SolverInfo) (base : Nat) :
    (∀ (h : Nat) (wres : Option String),
      find_minizinc (some h) wres = some (DriverHandle.lib h)) ∧
    (∀ p : String,
      find_minizinc Option.none (some p) = some (DriverHandle.exec p)) ∧
    find_minizinc Option.none Option.none = Option.none ∧
    load_solver solver (find_minizinc Option.none Option.none) Option.none
      registry base = Except.error PyErr.fileExistsError :=
  ⟨fun _ _ => rfl, fun _ => rfl, rfl, rfl⟩
